import Mathlib

/-!
# Netconnection.hpp: RTMP command declarations

A shallow embedding of `src/Netconnection.hpp`: the `CommandType` enumeration, the
static `CommandLinker` name table, the `Command` base struct with its seventeen derived
structs (default member initialisers included), and the codec bit-flag enumerations.

Conventions of the embedding:

* `unsigned short` is `Fin 65536`, `unsigned int` is `Fin 4294967296`, `int` is `Int`
  (no arithmetic is performed on them in the header).
* `Utils::Object` comes from `../utils/Object.hpp`, which is not part of the header; it
  is a type parameter `Obj`, and the value a default-constructed `Utils::Object` has is
  a parameter `o : Obj` of every constructor.
* A C++ derived struct that redeclares a member of `Command` holds both members. Each
  derived struct therefore has a field `base : Command Obj` next to its own fields.
* A scalar member without an initialiser has an indeterminate value after default
  construction; such values are parameters of the constructor functions.
-/

namespace Netconnection

/-! ## Definitions -/

/-- The enumeration `enum class CommandType` (lines 23-43). -/
inductive CommandType where
  | Null
  | Connect
  | ConnectResponse
  | Call
  | CallResponse
  | CreateStream
  | CreateStreamResponse
  | OnStatus
  | Play
  | Play2
  | DeleteStream
  | ReceiveAudio
  | ReceiveVideo
  | Publish
  | Seek
  | Pause
  | ReleaseStream
  | FCPublish
  deriving DecidableEq, Repr

/-- The initialiser list of `static inline map<std::string, CommandType> CommandLinker`
(lines 45-63), in source order. -/
def CommandLinker : List (String × CommandType) :=
  [ ("connect", CommandType.Connect),
    ("connectResponse", CommandType.ConnectResponse),
    ("call", CommandType.Call),
    ("callResponse", CommandType.CallResponse),
    ("createStream", CommandType.CreateStream),
    ("createStreamResponse", CommandType.CreateStreamResponse),
    ("onStatus", CommandType.OnStatus),
    ("play", CommandType.Play),
    ("play2", CommandType.Play2),
    ("deleteStream", CommandType.DeleteStream),
    ("receiveAudio", CommandType.ReceiveAudio),
    ("receiveVideo", CommandType.ReceiveVideo),
    ("publish", CommandType.Publish),
    ("seek", CommandType.Seek),
    ("pause", CommandType.Pause),
    ("releaseStream", CommandType.ReleaseStream),
    ("FCPublish", CommandType.FCPublish) ]

/-- Lookup in a `std::map` built from an initialiser list (`map::find`): the first pair
with an equal key wins, since insertion never overwrites; `none` is `end()`. Key
comparison is `std::string` equality, byte for byte. -/
def mapFind (m : List (String × CommandType)) (key : String) : Option CommandType :=
  m.lookup key

/-- The keys of a map, in initialiser order. -/
def mapKeys (m : List (String × CommandType)) : List String :=
  m.map Prod.fst

/-- Modelled from the spec: the codec's selection of a command kind by name, which the
header does not define. Section 4.2: the kind is selected "via a static name→kind lookup
table", and "unknown command names default to a generic `Call` kind". -/
def selectCommandType (name : String) : CommandType :=
  match mapFind CommandLinker name with
  | some kind => kind
  | none => CommandType.Call

/-- The C++ type `unsigned short` (16 bits). -/
abbrev UnsignedShort : Type := Fin 65536

/-- The C++ type `unsigned int` (32 bits). -/
abbrev UnsignedInt : Type := Fin 4294967296

/-- The base `struct Command` (lines 66-92). `type` has the initialiser
`CommandType::Null`, `CommandName` is a default-constructed `std::string`,
`TransactionID` has no initialiser. -/
structure Command (Obj : Type) where
  type : CommandType := CommandType.Null
  CommandName : String := ""
  TransactionID : UnsignedShort
  CommandObject : Obj

/-- The derived `struct Connect : public Command` (lines 94-117). -/
structure Connect (Obj : Type) where
  base : Command Obj
  type : CommandType := CommandType.Connect
  CommandName : String := "connect"
  TransactionID : UnsignedShort := 1
  OptionalUserArguments : Obj

/-- The derived `struct ConnectResponse : public Command` (lines 119-155). -/
structure ConnectResponse (Obj : Type) where
  base : Command Obj
  type : CommandType := CommandType.ConnectResponse
  CommandName : String := ""
  TransactionID : UnsignedShort := 1
  Properties : Obj
  Information : Obj

/-- The derived `struct Call : public Command` (lines 157-183). -/
structure Call (Obj : Type) where
  base : Command Obj
  type : CommandType := CommandType.Call
  CommandName : String := ""
  TransactionID : UnsignedShort
  OptionalArguments : Obj

/-- The derived `struct CallResponse : public Command` (lines 185-213). -/
structure CallResponse (Obj : Type) where
  base : Command Obj
  type : CommandType := CommandType.CallResponse
  TransactionID : UnsignedShort
  CommandObject : Obj
  Response : Obj

/-- The derived `struct CreateStream : public Command` (lines 215-233). -/
structure CreateStream (Obj : Type) where
  base : Command Obj
  type : CommandType := CommandType.CreateStream
  CommandName : String := "createStream"
  TransactionID : UnsignedShort

/-- The derived `struct CreateStreamResponse : public Command` (lines 235-255). -/
structure CreateStreamResponse (Obj : Type) where
  base : Command Obj
  type : CommandType := CommandType.CreateStreamResponse
  CommandName : String := ""
  StreamID : UnsignedInt

/-- The derived `struct OnStatus : public Command` (lines 257-285). -/
structure OnStatus (Obj : Type) where
  base : Command Obj
  type : CommandType := CommandType.OnStatus
  CommandName : String := ""
  TransactionID : UnsignedShort := 0
  CommandObject : Obj
  Information : Obj

/-- The derived `struct Play : public Command` (lines 287-348); `bool Reset = 0` is
`false`. -/
structure Play (Obj : Type) where
  base : Command Obj
  type : CommandType := CommandType.Play
  CommandName : String := "play"
  TransactionID : UnsignedShort := 0
  CommandObject : Obj
  StreamName : String := ""
  Start : Int := -2
  duration : Int := -1
  Reset : Bool := false

/-- The derived `struct Play2 : public Command` (lines 350-381). -/
structure Play2 (Obj : Type) where
  base : Command Obj
  type : CommandType := CommandType.Play2
  CommandName : String := "play2"
  TransactionID : UnsignedShort := 0
  CommandObject : Obj
  Parameters : Obj

/-- The derived `struct DeleteStream : public Command` (lines 383-404). The name member
it declares is spelled `commandName`, with a lower-case `c`. -/
structure DeleteStream (Obj : Type) where
  base : Command Obj
  type : CommandType := CommandType.DeleteStream
  commandName : String := "deleteStream"
  TransactionID : UnsignedShort := 0
  StreamID : Int := 0

/-- The derived `struct ReceiveAudio : public Command` (lines 406-436). -/
structure ReceiveAudio (Obj : Type) where
  base : Command Obj
  type : CommandType := CommandType.ReceiveAudio
  CommandName : String := "receiveAudio"
  TransactionID : UnsignedShort := 0
  CommandObject : Obj
  BoolFlag : Bool := false

/-- The derived `struct ReceiveVideo : public Command` (lines 438-468). -/
structure ReceiveVideo (Obj : Type) where
  base : Command Obj
  type : CommandType := CommandType.ReceiveVideo
  CommandName : String := "receiveVideo"
  TransactionID : UnsignedShort := 0
  CommandObject : Obj
  BoolFlag : Bool := false

/-- The derived `struct Publish : public Command` (lines 470-516). -/
structure Publish (Obj : Type) where
  base : Command Obj
  type : CommandType := CommandType.Publish
  CommandName : String := "publish"
  TransactionID : UnsignedShort := 0
  CommandObject : Obj
  PublishingName : String := ""
  PublishingType : String := ""

/-- The derived `struct Seek : public Command` (lines 518-550). -/
structure Seek (Obj : Type) where
  base : Command Obj
  type : CommandType := CommandType.Seek
  CommandName : String := "seek"
  TransactionID : UnsignedShort := 0
  CommandObject : Obj
  milliseconds : Int := 0

/-- The derived `struct Pause : public Command` (lines 552-594). -/
structure Pause (Obj : Type) where
  base : Command Obj
  type : CommandType := CommandType.Pause
  CommandName : String := "pause"
  TransactionID : UnsignedShort := 0
  CommandObject : Obj
  pause : Bool := false
  Milliseconds : Int := 0

/-- The derived `struct ReleaseStream : public Command` (lines 596-605). -/
structure ReleaseStream (Obj : Type) where
  base : Command Obj
  type : CommandType := CommandType.ReleaseStream
  CommandName : String := "releaseStream"
  TransactionID : UnsignedShort := 0
  StreamName : String := ""

/-- The derived `struct FCPublish : public Command` (lines 607-615). -/
structure FCPublish (Obj : Type) where
  base : Command Obj
  type : CommandType := CommandType.FCPublish
  CommandName : String := "FCPublish"
  TransactionID : UnsignedShort := 0
  StreamName : String := ""

/-! ### Default construction

Every member with an initialiser takes it; a `std::string` without one is empty; a
`Utils::Object` is the default-constructed object `o`; a scalar without an initialiser
is an arbitrary value (`u` for `Command::TransactionID`, `v` and `w` for the derived
struct's own scalar). -/

/-- A default-constructed `Command`. -/
def Command.defaultConstructed {Obj : Type} (o : Obj) (u : UnsignedShort) : Command Obj :=
  { TransactionID := u, CommandObject := o }

/-- A default-constructed `Connect`. -/
def Connect.defaultConstructed {Obj : Type} (o : Obj) (u : UnsignedShort) : Connect Obj :=
  { base := Command.defaultConstructed o u, OptionalUserArguments := o }

/-- A default-constructed `ConnectResponse`. -/
def ConnectResponse.defaultConstructed {Obj : Type} (o : Obj) (u : UnsignedShort) :
    ConnectResponse Obj :=
  { base := Command.defaultConstructed o u, Properties := o, Information := o }

/-- A default-constructed `Call`. -/
def Call.defaultConstructed {Obj : Type} (o : Obj) (u v : UnsignedShort) : Call Obj :=
  { base := Command.defaultConstructed o u, TransactionID := v, OptionalArguments := o }

/-- A default-constructed `CallResponse`. -/
def CallResponse.defaultConstructed {Obj : Type} (o : Obj) (u v : UnsignedShort) :
    CallResponse Obj :=
  { base := Command.defaultConstructed o u, TransactionID := v, CommandObject := o,
    Response := o }

/-- A default-constructed `CreateStream`. -/
def CreateStream.defaultConstructed {Obj : Type} (o : Obj) (u v : UnsignedShort) :
    CreateStream Obj :=
  { base := Command.defaultConstructed o u, TransactionID := v }

/-- A default-constructed `CreateStreamResponse`. -/
def CreateStreamResponse.defaultConstructed {Obj : Type} (o : Obj) (u : UnsignedShort)
    (w : UnsignedInt) : CreateStreamResponse Obj :=
  { base := Command.defaultConstructed o u, StreamID := w }

/-- A default-constructed `OnStatus`. -/
def OnStatus.defaultConstructed {Obj : Type} (o : Obj) (u : UnsignedShort) : OnStatus Obj :=
  { base := Command.defaultConstructed o u, CommandObject := o, Information := o }

/-- A default-constructed `Play`. -/
def Play.defaultConstructed {Obj : Type} (o : Obj) (u : UnsignedShort) : Play Obj :=
  { base := Command.defaultConstructed o u, CommandObject := o }

/-- A default-constructed `Play2`. -/
def Play2.defaultConstructed {Obj : Type} (o : Obj) (u : UnsignedShort) : Play2 Obj :=
  { base := Command.defaultConstructed o u, CommandObject := o, Parameters := o }

/-- A default-constructed `DeleteStream`. -/
def DeleteStream.defaultConstructed {Obj : Type} (o : Obj) (u : UnsignedShort) :
    DeleteStream Obj :=
  { base := Command.defaultConstructed o u }

/-- A default-constructed `ReceiveAudio`. -/
def ReceiveAudio.defaultConstructed {Obj : Type} (o : Obj) (u : UnsignedShort) :
    ReceiveAudio Obj :=
  { base := Command.defaultConstructed o u, CommandObject := o }

/-- A default-constructed `ReceiveVideo`. -/
def ReceiveVideo.defaultConstructed {Obj : Type} (o : Obj) (u : UnsignedShort) :
    ReceiveVideo Obj :=
  { base := Command.defaultConstructed o u, CommandObject := o }

/-- A default-constructed `Publish`. -/
def Publish.defaultConstructed {Obj : Type} (o : Obj) (u : UnsignedShort) : Publish Obj :=
  { base := Command.defaultConstructed o u, CommandObject := o }

/-- A default-constructed `Seek`. -/
def Seek.defaultConstructed {Obj : Type} (o : Obj) (u : UnsignedShort) : Seek Obj :=
  { base := Command.defaultConstructed o u, CommandObject := o }

/-- A default-constructed `Pause`. -/
def Pause.defaultConstructed {Obj : Type} (o : Obj) (u : UnsignedShort) : Pause Obj :=
  { base := Command.defaultConstructed o u, CommandObject := o }

/-- A default-constructed `ReleaseStream`. -/
def ReleaseStream.defaultConstructed {Obj : Type} (o : Obj) (u : UnsignedShort) :
    ReleaseStream Obj :=
  { base := Command.defaultConstructed o u }

/-- A default-constructed `FCPublish`. -/
def FCPublish.defaultConstructed {Obj : Type} (o : Obj) (u : UnsignedShort) :
    FCPublish Obj :=
  { base := Command.defaultConstructed o u }

/-- Member access `d.CommandName` on a `DeleteStream`: the struct declares no member of
that name (its own is `commandName`), so name lookup finds `Command::CommandName`. -/
def DeleteStream.CommandName {Obj : Type} (d : DeleteStream Obj) : String :=
  d.base.CommandName

/-- The `type` member that each of the seventeen derived structs declares, read on a
default-constructed value, in the order the structs are declared. -/
def declaredTypes {Obj : Type} (o : Obj) (u v : UnsignedShort) (w : UnsignedInt) :
    List CommandType :=
  [ (Connect.defaultConstructed o u).type,
    (ConnectResponse.defaultConstructed o u).type,
    (Call.defaultConstructed o u v).type,
    (CallResponse.defaultConstructed o u v).type,
    (CreateStream.defaultConstructed o u v).type,
    (CreateStreamResponse.defaultConstructed o u w).type,
    (OnStatus.defaultConstructed o u).type,
    (Play.defaultConstructed o u).type,
    (Play2.defaultConstructed o u).type,
    (DeleteStream.defaultConstructed o u).type,
    (ReceiveAudio.defaultConstructed o u).type,
    (ReceiveVideo.defaultConstructed o u).type,
    (Publish.defaultConstructed o u).type,
    (Seek.defaultConstructed o u).type,
    (Pause.defaultConstructed o u).type,
    (ReleaseStream.defaultConstructed o u).type,
    (FCPublish.defaultConstructed o u).type ]

/-- Reverse lookup in a map: the key of the first pair of the initialiser list whose
value is `kind`, or `none` when no pair has that value. -/
def mapNameOf (m : List (String × CommandType)) (kind : CommandType) : Option String :=
  (m.find? (fun p => decide (p.2 = kind))).map Prod.fst

/-! ### Codec bit-flag enumerations -/

/-- The enumeration `enum AudioCodecs` (lines 661-715). -/
inductive AudioCodecs where
  | SUPPORT_SND_NONE
  | SUPPORT_SND_ADPCM
  | SUPPORT_SND_MP3
  | SUPPORT_SND_INTEL
  | SUPPORT_SND_UNUSED
  | SUPPORT_SND_NELLY8
  | SUPPORT_SND_NELLY
  | SUPPORT_SND_G711A
  | SUPPORT_SND_G711U
  | SUPPORT_SND_NELLY16
  | SUPPORT_SND_AAC
  | SUPPORT_SND_SPEEX
  | SUPPORT_SND_ALL
  deriving DecidableEq, Repr

/-- The value each `AudioCodecs` enumerator is declared with. -/
def AudioCodecs.value : AudioCodecs → Nat
  | SUPPORT_SND_NONE => 0x0001
  | SUPPORT_SND_ADPCM => 0x0002
  | SUPPORT_SND_MP3 => 0x0004
  | SUPPORT_SND_INTEL => 0x0008
  | SUPPORT_SND_UNUSED => 0x0010
  | SUPPORT_SND_NELLY8 => 0x0020
  | SUPPORT_SND_NELLY => 0x0040
  | SUPPORT_SND_G711A => 0x0080
  | SUPPORT_SND_G711U => 0x0100
  | SUPPORT_SND_NELLY16 => 0x0200
  | SUPPORT_SND_AAC => 0x0400
  | SUPPORT_SND_SPEEX => 0x0800
  | SUPPORT_SND_ALL => 0x0FFF

/-- The enumeration `enum VideoCodecs` (lines 717-755). -/
inductive VideoCodecs where
  | SUPPORT_VID_UNUSED
  | SUPPORT_VID_JPEG
  | SUPPORT_VID_SORENSON
  | SUPPORT_VID_HOMEBREW
  | SUPPORT_VID_VP6
  | SUPPORT_VID_VP6ALPHA
  | SUPPORT_VID_HOMEBREWV
  | SUPPORT_VID_H264
  | SUPPORT_VID_ALL
  deriving DecidableEq, Repr

/-- The value each `VideoCodecs` enumerator is declared with. -/
def VideoCodecs.value : VideoCodecs → Nat
  | SUPPORT_VID_UNUSED => 0x0001
  | SUPPORT_VID_JPEG => 0x0002
  | SUPPORT_VID_SORENSON => 0x0004
  | SUPPORT_VID_HOMEBREW => 0x0008
  | SUPPORT_VID_VP6 => 0x0010
  | SUPPORT_VID_VP6ALPHA => 0x0020
  | SUPPORT_VID_HOMEBREWV => 0x0040
  | SUPPORT_VID_H264 => 0x0080
  | SUPPORT_VID_ALL => 0x00FF

/-- The twelve `AudioCodecs` enumerators before `SUPPORT_SND_ALL`, in declaration
order. -/
def AudioCodecs.flags : List AudioCodecs :=
  [ SUPPORT_SND_NONE, SUPPORT_SND_ADPCM, SUPPORT_SND_MP3, SUPPORT_SND_INTEL,
    SUPPORT_SND_UNUSED, SUPPORT_SND_NELLY8, SUPPORT_SND_NELLY, SUPPORT_SND_G711A,
    SUPPORT_SND_G711U, SUPPORT_SND_NELLY16, SUPPORT_SND_AAC, SUPPORT_SND_SPEEX ]

/-- The eight `VideoCodecs` enumerators before `SUPPORT_VID_ALL`, in declaration
order. -/
def VideoCodecs.flags : List VideoCodecs :=
  [ SUPPORT_VID_UNUSED, SUPPORT_VID_JPEG, SUPPORT_VID_SORENSON, SUPPORT_VID_HOMEBREW,
    SUPPORT_VID_VP6, SUPPORT_VID_VP6ALPHA, SUPPORT_VID_HOMEBREWV, SUPPORT_VID_H264 ]

/-- Bitwise OR (`|`) of a list of enumerator values. -/
def orAll (values : List Nat) : Nat :=
  values.foldl (fun acc x => acc ||| x) 0

/-! ## Theorems -/

/-- A successful lookup returns a pair of the initialiser list. -/
theorem mapFind_mem (m : List (String × CommandType)) (key : String) (kind : CommandType)
    (h : mapFind m key = some kind) : (key, kind) ∈ m := by
  induction m with
  | nil => simp [mapFind] at h
  | cons p rest ih =>
    obtain ⟨k, v⟩ := p
    unfold mapFind at h ih
    rw [List.lookup_cons] at h
    by_cases hk : key = k
    · subst hk
      simp at h
      subst h
      exact List.mem_cons_self _ _
    · have hb : (key == k) = false := by simpa using hk
      rw [hb] at h
      exact List.mem_cons_of_mem _ (ih h)

/-- A lookup fails exactly on the names that are not keys. -/
theorem mapFind_eq_none (m : List (String × CommandType)) (key : String) :
    mapFind m key = none ↔ key ∉ mapKeys m := by
  induction m with
  | nil => simp [mapFind, mapKeys]
  | cons p rest ih =>
    obtain ⟨k, v⟩ := p
    unfold mapFind mapKeys at ih ⊢
    rw [List.lookup_cons]
    by_cases hk : key = k
    · subst hk
      simp
    · have hb : (key == k) = false := by simpa using hk
      rw [hb]
      simp [hk, ih]

/-- C1: `CommandLinker` has exactly the seventeen keys of the header, each mapped to the
kind of the same name, and nothing else; lookup is case-sensitive. -/
theorem CommandLinker_entries :
    mapFind CommandLinker "connect" = some CommandType.Connect ∧
    mapFind CommandLinker "connectResponse" = some CommandType.ConnectResponse ∧
    mapFind CommandLinker "call" = some CommandType.Call ∧
    mapFind CommandLinker "callResponse" = some CommandType.CallResponse ∧
    mapFind CommandLinker "createStream" = some CommandType.CreateStream ∧
    mapFind CommandLinker "createStreamResponse" = some CommandType.CreateStreamResponse ∧
    mapFind CommandLinker "onStatus" = some CommandType.OnStatus ∧
    mapFind CommandLinker "play" = some CommandType.Play ∧
    mapFind CommandLinker "play2" = some CommandType.Play2 ∧
    mapFind CommandLinker "deleteStream" = some CommandType.DeleteStream ∧
    mapFind CommandLinker "receiveAudio" = some CommandType.ReceiveAudio ∧
    mapFind CommandLinker "receiveVideo" = some CommandType.ReceiveVideo ∧
    mapFind CommandLinker "publish" = some CommandType.Publish ∧
    mapFind CommandLinker "seek" = some CommandType.Seek ∧
    mapFind CommandLinker "pause" = some CommandType.Pause ∧
    mapFind CommandLinker "releaseStream" = some CommandType.ReleaseStream ∧
    mapFind CommandLinker "FCPublish" = some CommandType.FCPublish ∧
    (∀ key : String, mapFind CommandLinker key ≠ none →
      key ∈ ["connect", "connectResponse", "call", "callResponse", "createStream",
        "createStreamResponse", "onStatus", "play", "play2", "deleteStream",
        "receiveAudio", "receiveVideo", "publish", "seek", "pause", "releaseStream",
        "FCPublish"]) ∧
    CommandLinker.length = 17 ∧
    mapFind CommandLinker "fcpublish" = none := by
  have hkeys : ∀ key : String, mapFind CommandLinker key ≠ none →
      key ∈ mapKeys CommandLinker := by
    intro key hkey
    by_contra hnot
    exact hkey ((mapFind_eq_none CommandLinker key).2 hnot)
  and_intros
  all_goals first | decide | exact hkeys

/-- C2: a command name that is not a key of `CommandLinker` is given the generic `Call`
kind by the selection of section 4.2. -/
theorem selectCommandType_unknown (name : String) (h : name ∉ mapKeys CommandLinker) :
    selectCommandType name = CommandType.Call := by
  unfold selectCommandType
  rw [(mapFind_eq_none CommandLinker name).2 h]

/-- C2 at the response names `_result` and `_error`: neither is a key, both select
`Call`. -/
theorem selectCommandType_unknown_witness :
    ("_result" ∉ mapKeys CommandLinker ∧ selectCommandType "_result" = CommandType.Call) ∧
    ("_error" ∉ mapKeys CommandLinker ∧ selectCommandType "_error" = CommandType.Call) :=
  ⟨⟨by decide, selectCommandType_unknown "_result" (by decide)⟩,
   ⟨by decide, selectCommandType_unknown "_error" (by decide)⟩⟩

/-- C4: a default-constructed `Connect` has `CommandName` "connect" and `TransactionID`
1, and a default-constructed `ConnectResponse` has `TransactionID` 1. -/
theorem connect_exchange_TransactionID {Obj : Type} (o : Obj) (u : UnsignedShort) :
    (Connect.defaultConstructed o u).CommandName = "connect" ∧
    (Connect.defaultConstructed o u).TransactionID = 1 ∧
    (ConnectResponse.defaultConstructed o u).TransactionID = 1 :=
  ⟨rfl, rfl, rfl⟩

/-- C5 as stated fails: `TransactionID` is a plain data member of `OnStatus`, and an
`OnStatus` value holding 7 there is as well-formed as one holding 0. -/
theorem OnStatus_TransactionID_not_invariant :
    ¬ ∀ s : OnStatus Unit, s.TransactionID = 0 := by
  intro h
  have h7 := h { OnStatus.defaultConstructed () 0 with TransactionID := 7 }
  exact absurd h7 (by decide)

/-- C5, amended: a default-constructed `OnStatus` carries `TransactionID` 0. -/
theorem OnStatus_default_TransactionID {Obj : Type} (o : Obj) (u : UnsignedShort) :
    (OnStatus.defaultConstructed o u).TransactionID = 0 :=
  rfl

/-- C6: a default-constructed `Play` has `Start` -2, `duration` -1, `Reset` false and
`CommandName` "play". -/
theorem Play_defaults {Obj : Type} (o : Obj) (u : UnsignedShort) :
    (Play.defaultConstructed o u).Start = -2 ∧
    (Play.defaultConstructed o u).duration = -1 ∧
    (Play.defaultConstructed o u).Reset = false ∧
    (Play.defaultConstructed o u).CommandName = "play" :=
  ⟨rfl, rfl, rfl, rfl⟩

/-- C7: the twelve audio flags and the eight video flags are each a power of two, no
two flags of one enumeration share a bit, and their bitwise OR is the enumeration's
`ALL` mask, 0x0FFF for audio and 0x00FF for video. -/
theorem codec_flags_are_bit_sets :
    (AudioCodecs.flags.length = 12 ∧
      (∀ f ∈ AudioCodecs.flags, ∃ k : Nat, f.value = 2 ^ k) ∧
      AudioCodecs.flags.Pairwise (fun a b => a.value &&& b.value = 0) ∧
      orAll (AudioCodecs.flags.map AudioCodecs.value) = AudioCodecs.SUPPORT_SND_ALL.value ∧
      AudioCodecs.SUPPORT_SND_ALL.value = 0x0FFF) ∧
    (VideoCodecs.flags.length = 8 ∧
      (∀ f ∈ VideoCodecs.flags, ∃ k : Nat, f.value = 2 ^ k) ∧
      VideoCodecs.flags.Pairwise (fun a b => a.value &&& b.value = 0) ∧
      orAll (VideoCodecs.flags.map VideoCodecs.value) = VideoCodecs.SUPPORT_VID_ALL.value ∧
      VideoCodecs.SUPPORT_VID_ALL.value = 0x00FF) := by
  have haudio : ∀ f ∈ AudioCodecs.flags, ∃ k : Nat, k < 12 ∧ f.value = 2 ^ k := by decide
  have hvideo : ∀ f ∈ VideoCodecs.flags, ∃ k : Nat, k < 8 ∧ f.value = 2 ^ k := by decide
  refine ⟨⟨rfl, ?_, by decide, by decide, rfl⟩, ⟨rfl, ?_, by decide, by decide, rfl⟩⟩
  · intro f hf
    obtain ⟨k, _, hk⟩ := haudio f hf
    exact ⟨k, hk⟩
  · intro f hf
    obtain ⟨k, _, hk⟩ := hvideo f hf
    exact ⟨k, hk⟩

/-- C8: the `type` member each of the seventeen derived structs declares is, on a
default-constructed value, the `CommandType` enumerator of the same name; none of the
seventeen tags is `Null` and no two are equal. -/
theorem derived_structs_own_type {Obj : Type} (o : Obj) (u v : UnsignedShort)
    (w : UnsignedInt) :
    declaredTypes o u v w =
      [ CommandType.Connect, CommandType.ConnectResponse, CommandType.Call,
        CommandType.CallResponse, CommandType.CreateStream,
        CommandType.CreateStreamResponse, CommandType.OnStatus, CommandType.Play,
        CommandType.Play2, CommandType.DeleteStream, CommandType.ReceiveAudio,
        CommandType.ReceiveVideo, CommandType.Publish, CommandType.Seek,
        CommandType.Pause, CommandType.ReleaseStream, CommandType.FCPublish ] ∧
    (declaredTypes o u v w).length = 17 ∧
    CommandType.Null ∉ declaredTypes o u v w ∧
    (declaredTypes o u v w).Nodup := by
  have hlist : declaredTypes o u v w =
      [ CommandType.Connect, CommandType.ConnectResponse, CommandType.Call,
        CommandType.CallResponse, CommandType.CreateStream,
        CommandType.CreateStreamResponse, CommandType.OnStatus, CommandType.Play,
        CommandType.Play2, CommandType.DeleteStream, CommandType.ReceiveAudio,
        CommandType.ReceiveVideo, CommandType.Publish, CommandType.Seek,
        CommandType.Pause, CommandType.ReleaseStream, CommandType.FCPublish ] := rfl
  rw [hlist]
  exact ⟨rfl, rfl, by decide, by decide⟩

/-- C9 at `DeleteStream`: the struct spells its name member `commandName`, so the
`CommandName` of a default-constructed `DeleteStream` is the empty string inherited from
`Command`, which is not a key of `CommandLinker`; the member it does declare holds
"deleteStream", which the table maps to the struct's own tag. The other eleven
fixed-name structs have a `CommandName` that the table maps to their own tag. -/
theorem DeleteStream_CommandName_not_a_key {Obj : Type} (o : Obj) (u v : UnsignedShort) :
    (DeleteStream.defaultConstructed o u).CommandName = "" ∧
    mapFind CommandLinker (DeleteStream.defaultConstructed o u).CommandName = none ∧
    (DeleteStream.defaultConstructed o u).CommandName ∉ mapKeys CommandLinker ∧
    mapFind CommandLinker (DeleteStream.defaultConstructed o u).commandName
      = some (DeleteStream.defaultConstructed o u).type ∧
    mapFind CommandLinker (Connect.defaultConstructed o u).CommandName
      = some (Connect.defaultConstructed o u).type ∧
    mapFind CommandLinker (CreateStream.defaultConstructed o u v).CommandName
      = some (CreateStream.defaultConstructed o u v).type ∧
    mapFind CommandLinker (Play.defaultConstructed o u).CommandName
      = some (Play.defaultConstructed o u).type ∧
    mapFind CommandLinker (Play2.defaultConstructed o u).CommandName
      = some (Play2.defaultConstructed o u).type ∧
    mapFind CommandLinker (ReceiveAudio.defaultConstructed o u).CommandName
      = some (ReceiveAudio.defaultConstructed o u).type ∧
    mapFind CommandLinker (ReceiveVideo.defaultConstructed o u).CommandName
      = some (ReceiveVideo.defaultConstructed o u).type ∧
    mapFind CommandLinker (Publish.defaultConstructed o u).CommandName
      = some (Publish.defaultConstructed o u).type ∧
    mapFind CommandLinker (Seek.defaultConstructed o u).CommandName
      = some (Seek.defaultConstructed o u).type ∧
    mapFind CommandLinker (Pause.defaultConstructed o u).CommandName
      = some (Pause.defaultConstructed o u).type ∧
    mapFind CommandLinker (ReleaseStream.defaultConstructed o u).CommandName
      = some (ReleaseStream.defaultConstructed o u).type ∧
    mapFind CommandLinker (FCPublish.defaultConstructed o u).CommandName
      = some (FCPublish.defaultConstructed o u).type := by
  have hempty : "" ∉ mapKeys CommandLinker := by decide
  and_intros
  all_goals first | rfl | exact hempty

/-- C10: a default-constructed `Play`, `Play2`, `DeleteStream`, `ReceiveAudio`,
`ReceiveVideo`, `Publish`, `Seek`, `Pause`, `ReleaseStream` or `FCPublish` has
`TransactionID` 0. -/
theorem netStream_default_TransactionID {Obj : Type} (o : Obj) (u : UnsignedShort) :
    (Play.defaultConstructed o u).TransactionID = 0 ∧
    (Play2.defaultConstructed o u).TransactionID = 0 ∧
    (DeleteStream.defaultConstructed o u).TransactionID = 0 ∧
    (ReceiveAudio.defaultConstructed o u).TransactionID = 0 ∧
    (ReceiveVideo.defaultConstructed o u).TransactionID = 0 ∧
    (Publish.defaultConstructed o u).TransactionID = 0 ∧
    (Seek.defaultConstructed o u).TransactionID = 0 ∧
    (Pause.defaultConstructed o u).TransactionID = 0 ∧
    (ReleaseStream.defaultConstructed o u).TransactionID = 0 ∧
    (FCPublish.defaultConstructed o u).TransactionID = 0 :=
  ⟨rfl, rfl, rfl, rfl, rfl, rfl, rfl, rfl, rfl, rfl⟩

/-- No two pairs of `CommandLinker` with different keys carry the same kind. -/
theorem CommandLinker_values_distinct :
    ∀ p ∈ CommandLinker, ∀ q ∈ CommandLinker, p.2 = q.2 → p.1 = q.1 := by
  decide

/-- Two names that find the same kind in `CommandLinker` are the same name. -/
theorem mapFind_CommandLinker_injective (n₁ n₂ : String) (kind : CommandType)
    (h₁ : mapFind CommandLinker n₁ = some kind) (h₂ : mapFind CommandLinker n₂ = some kind) :
    n₁ = n₂ :=
  CommandLinker_values_distinct (n₁, kind) (mapFind_mem CommandLinker n₁ kind h₁)
    (n₂, kind) (mapFind_mem CommandLinker n₂ kind h₂) rfl

/-- Every kind other than `Null` is found under the name the reverse lookup gives. -/
theorem mapFind_mapNameOf (kind : CommandType) (hk : kind ≠ CommandType.Null) :
    mapFind CommandLinker ((mapNameOf CommandLinker kind).getD "") = some kind := by
  cases kind
  case Null => exact absurd rfl hk
  all_goals decide

/-- C11: `CommandLinker` is a bijection between its seventeen keys and the seventeen
kinds other than `Null`: two names that find the same kind are equal, every kind other
than `Null` is found under exactly one name, and no name finds `Null`. -/
theorem CommandLinker_bijective :
    (mapKeys CommandLinker).length = 17 ∧
    (mapKeys CommandLinker).Nodup ∧
    (∀ (n₁ n₂ : String) (kind : CommandType),
      mapFind CommandLinker n₁ = some kind → mapFind CommandLinker n₂ = some kind →
        n₁ = n₂) ∧
    (∀ kind : CommandType, kind ≠ CommandType.Null →
      ∃! name : String, mapFind CommandLinker name = some kind) ∧
    (∀ name : String, mapFind CommandLinker name ≠ some CommandType.Null) := by
  refine ⟨rfl, by decide, mapFind_CommandLinker_injective, ?_, ?_⟩
  · intro kind hk
    refine ⟨(mapNameOf CommandLinker kind).getD "", mapFind_mapNameOf kind hk, ?_⟩
    intro other hother
    exact mapFind_CommandLinker_injective other _ kind hother (mapFind_mapNameOf kind hk)
  · intro name hname
    have hmem := mapFind_mem CommandLinker name CommandType.Null hname
    have hnone : ∀ p ∈ CommandLinker, p.2 ≠ CommandType.Null := by decide
    exact hnone (name, CommandType.Null) hmem rfl

/-- C12: on a default-constructed value of each of the seventeen derived structs, the
`type` member of the `Command` base is still `CommandType::Null`, and differs from the
`type` member the derived struct declares. -/
theorem base_type_stays_Null {Obj : Type} (o : Obj) (u v : UnsignedShort)
    (w : UnsignedInt) :
    ((Connect.defaultConstructed o u).base.type = CommandType.Null ∧
     (ConnectResponse.defaultConstructed o u).base.type = CommandType.Null ∧
     (Call.defaultConstructed o u v).base.type = CommandType.Null ∧
     (CallResponse.defaultConstructed o u v).base.type = CommandType.Null ∧
     (CreateStream.defaultConstructed o u v).base.type = CommandType.Null ∧
     (CreateStreamResponse.defaultConstructed o u w).base.type = CommandType.Null ∧
     (OnStatus.defaultConstructed o u).base.type = CommandType.Null ∧
     (Play.defaultConstructed o u).base.type = CommandType.Null ∧
     (Play2.defaultConstructed o u).base.type = CommandType.Null ∧
     (DeleteStream.defaultConstructed o u).base.type = CommandType.Null ∧
     (ReceiveAudio.defaultConstructed o u).base.type = CommandType.Null ∧
     (ReceiveVideo.defaultConstructed o u).base.type = CommandType.Null ∧
     (Publish.defaultConstructed o u).base.type = CommandType.Null ∧
     (Seek.defaultConstructed o u).base.type = CommandType.Null ∧
     (Pause.defaultConstructed o u).base.type = CommandType.Null ∧
     (ReleaseStream.defaultConstructed o u).base.type = CommandType.Null ∧
     (FCPublish.defaultConstructed o u).base.type = CommandType.Null) ∧
    ((Connect.defaultConstructed o u).base.type ≠ (Connect.defaultConstructed o u).type ∧
     (ConnectResponse.defaultConstructed o u).base.type
       ≠ (ConnectResponse.defaultConstructed o u).type ∧
     (Call.defaultConstructed o u v).base.type ≠ (Call.defaultConstructed o u v).type ∧
     (CallResponse.defaultConstructed o u v).base.type
       ≠ (CallResponse.defaultConstructed o u v).type ∧
     (CreateStream.defaultConstructed o u v).base.type
       ≠ (CreateStream.defaultConstructed o u v).type ∧
     (CreateStreamResponse.defaultConstructed o u w).base.type
       ≠ (CreateStreamResponse.defaultConstructed o u w).type ∧
     (OnStatus.defaultConstructed o u).base.type ≠ (OnStatus.defaultConstructed o u).type ∧
     (Play.defaultConstructed o u).base.type ≠ (Play.defaultConstructed o u).type ∧
     (Play2.defaultConstructed o u).base.type ≠ (Play2.defaultConstructed o u).type ∧
     (DeleteStream.defaultConstructed o u).base.type
       ≠ (DeleteStream.defaultConstructed o u).type ∧
     (ReceiveAudio.defaultConstructed o u).base.type
       ≠ (ReceiveAudio.defaultConstructed o u).type ∧
     (ReceiveVideo.defaultConstructed o u).base.type
       ≠ (ReceiveVideo.defaultConstructed o u).type ∧
     (Publish.defaultConstructed o u).base.type ≠ (Publish.defaultConstructed o u).type ∧
     (Seek.defaultConstructed o u).base.type ≠ (Seek.defaultConstructed o u).type ∧
     (Pause.defaultConstructed o u).base.type ≠ (Pause.defaultConstructed o u).type ∧
     (ReleaseStream.defaultConstructed o u).base.type
       ≠ (ReleaseStream.defaultConstructed o u).type ∧
     (FCPublish.defaultConstructed o u).base.type
       ≠ (FCPublish.defaultConstructed o u).type) := by
  and_intros
  all_goals first | rfl | exact fun h => CommandType.noConfusion h

end Netconnection
